import Mathlib

/-!
Verification of the gluetun configuration-resolution core: the OpenVPN
settings model with its resolution algebra (mergeWith, setDefaults), the
OpenVPN validator chain, the redacted tree renderer, the WireGuard
settings checker and the Updater settings reader.

Go pointers are embedded as `Option` (a nil pointer is `none`), Go strings
as `String` (absent means empty), Go slices as `Option (List _)` (a nil
slice is `none`, so present-empty stays distinguishable from absent).
Functions that dereference possibly-nil pointers are embedded in
`Except Unit` where `Except.error ()` marks a nil-pointer dereference
(a Go panic); short-circuit evaluation of `&&` and `||` around
dereferences is reproduced by the branching structure.
-/

/-- Modelled from the spec: the gosettings fill-if-absent helper for strings
used by mergeWith (the helper library is outside the given sources); a string
field is absent when it is empty. -/
def MergeWithString (existing other : String) : String :=
  if existing = "" then other else existing

/-- Modelled from the spec: the gosettings fill-if-absent helper for pointer
fields; a pointer field is absent when it is nil (`none`). -/
def MergeWithPointer {α : Type} (existing other : Option α) : Option α :=
  match existing with
  | some v => some v
  | none => other

/-- Modelled from the spec: the gosettings fill-if-absent helper for slice
fields; a slice field is absent when it is nil (`none`). -/
def MergeWithSlice {α : Type} (existing other : Option (List α)) : Option (List α) :=
  match existing with
  | some l => some l
  | none => other

/-- Modelled from the spec: the gosettings default-if-still-absent helper for
pointer fields; the result always carries a value. -/
def DefaultPointer {α : Type} (existing : Option α) (defaultValue : α) : Option α :=
  match existing with
  | some v => some v
  | none => some defaultValue

/-- Modelled from the spec: the gosettings default-if-still-absent helper for
string fields. -/
def DefaultString (existing defaultValue : String) : String :=
  if existing = "" then defaultValue else existing

/-- Modelled from the spec: the gosettings secret redaction helper; a secret
value is rendered as a presence marker, never as the underlying value. -/
def ObfuscateKey (key : String) : String :=
  if key = "" then "not set" else "set"

/-- Modelled from the spec: constant openvpn.Openvpn25 of the constants
package (outside the given sources). -/
def Openvpn25 : String := "2.5"

/-- Modelled from the spec: constant openvpn.Openvpn26. -/
def Openvpn26 : String := "2.6"

/-- Modelled from the spec: provider identifier providers.Custom. -/
def Custom : String := "custom"

/-- Modelled from the spec: provider identifier providers.Airvpn. -/
def Airvpn : String := "airvpn"

/-- Modelled from the spec: provider identifier providers.Cyberghost. -/
def Cyberghost : String := "cyberghost"

/-- Modelled from the spec: provider identifier providers.Ivpn. -/
def Ivpn : String := "ivpn"

/-- Modelled from the spec: provider identifier providers.Mullvad. -/
def Mullvad : String := "mullvad"

/-- Modelled from the spec: provider identifier providers.PrivateInternetAccess. -/
def PrivateInternetAccess : String := "private internet access"

/-- Modelled from the spec: provider identifier providers.VPNSecure. -/
def VPNSecure : String := "vpnsecure"

/-- Modelled from the spec: provider identifier providers.VPNUnlimited. -/
def VPNUnlimited : String := "vpn unlimited"

/-- Modelled from the spec: provider identifier providers.Wevpn. -/
def Wevpn : String := "wevpn"

/-- Modelled from the spec: the Private Internet Access strong encryption
preset presets.Strong. -/
def PresetStrong : String := "strong"

/-- The OpenVPN settings record: pointer fields are `Option`, slices are
`Option (List _)`, plain strings stay `String`. Field defaults give the Go
zero value. -/
structure OpenVPN where
  Version : String := ""
  User : Option String := none
  Password : Option String := none
  ConfFile : Option String := none
  Ciphers : Option (List String) := none
  Auth : Option String := none
  Cert : Option String := none
  Key : Option String := none
  EncryptedKey : Option String := none
  KeyPassphrase : Option String := none
  PIAEncPreset : Option String := none
  MSSFix : Option Nat := none
  Interface : String := ""
  ProcessUser : String := ""
  Verbosity : Option Int := none
  Flags : Option (List String) := none
deriving DecidableEq

/-- mergeWith merges the other settings into any unset field of the
receiver settings object. -/
def OpenVPN.mergeWith (o other : OpenVPN) : OpenVPN :=
  { Version := MergeWithString o.Version other.Version
    User := MergeWithPointer o.User other.User
    Password := MergeWithPointer o.Password other.Password
    ConfFile := MergeWithPointer o.ConfFile other.ConfFile
    Ciphers := MergeWithSlice o.Ciphers other.Ciphers
    Auth := MergeWithPointer o.Auth other.Auth
    Cert := MergeWithPointer o.Cert other.Cert
    Key := MergeWithPointer o.Key other.Key
    EncryptedKey := MergeWithPointer o.EncryptedKey other.EncryptedKey
    KeyPassphrase := MergeWithPointer o.KeyPassphrase other.KeyPassphrase
    PIAEncPreset := MergeWithPointer o.PIAEncPreset other.PIAEncPreset
    MSSFix := MergeWithPointer o.MSSFix other.MSSFix
    Interface := MergeWithString o.Interface other.Interface
    ProcessUser := MergeWithString o.ProcessUser other.ProcessUser
    Verbosity := MergeWithPointer o.Verbosity other.Verbosity
    Flags := MergeWithSlice o.Flags other.Flags }

/-- setDefaults fills every still-absent field with its default; the
password default and the Private Internet Access encryption preset default
depend on the provider. -/
def OpenVPN.setDefaults (o : OpenVPN) (vpnProvider : String) : OpenVPN :=
  { o with
    Version := DefaultString o.Version Openvpn25
    User := DefaultPointer o.User ""
    Password :=
      if vpnProvider = Mullvad then DefaultPointer o.Password "m"
      else DefaultPointer o.Password ""
    ConfFile := DefaultPointer o.ConfFile ""
    Auth := DefaultPointer o.Auth ""
    Cert := DefaultPointer o.Cert ""
    Key := DefaultPointer o.Key ""
    EncryptedKey := DefaultPointer o.EncryptedKey ""
    KeyPassphrase := DefaultPointer o.KeyPassphrase ""
    PIAEncPreset := DefaultPointer o.PIAEncPreset
      (if vpnProvider = PrivateInternetAccess then PresetStrong else "")
    MSSFix := DefaultPointer o.MSSFix 0
    Interface := DefaultString o.Interface "tun0"
    ProcessUser := DefaultString o.ProcessUser "root"
    Verbosity := DefaultPointer o.Verbosity 1 }

/-- Character class of the account-ID groups of the ivpnAccountID regular
expression: ASCII letters and digits. -/
def isAccountChar (c : Char) : Bool :=
  c.isAlphanum

/-- One group of the ivpnAccountID regular expression: exactly four
alphanumeric characters. -/
def isAccountGroup (g : List Char) : Bool :=
  g.length == 4 && g.all isAccountChar

/-- Split of a character list at every dash, keeping empty groups. -/
def splitOnDash : List Char → List (List Char)
  | [] => [[]]
  | c :: rest =>
    let r := splitOnDash rest
    if c = '-' then [] :: r
    else
      match r with
      | [] => [[c]]
      | g :: gs => (c :: g) :: gs

/-- The ivpnAccountID regular expression
(i|ivpn)-xxxx-xxxx-xxxx with alphanumeric groups, anchored at both ends.
Neither the prefix alternatives nor the groups may contain a dash, so
matching is equivalent to splitting the string at every dash. -/
def ivpnAccountIDMatch (s : String) : Bool :=
  match splitOnDash s.data with
  | [p, g1, g2, g3] =>
    (p == ['i'] || p == ['i', 'v', 'p', 'n']) &&
      isAccountGroup g1 && isAccountGroup g2 && isAccountGroup g3
  | _ => false

/-- Character class of the standard base64 alphabet (without padding). -/
def isBase64StdChar (c : Char) : Bool :=
  c.isAlphanum || c == '+' || c == '/'

/-- The characters the Go standard base64 decoder keeps (it skips newline
and carriage return). -/
def base64Kept (cs : List Char) : List Char :=
  cs.filter (fun c => c != '\n' && c != '\r')

/-- Number of trailing padding characters. -/
def base64PadCount (cs : List Char) : Nat :=
  (cs.reverse.takeWhile (fun c => c == '=')).length

/-- Acceptance condition of Go base64.StdEncoding.DecodeString: a multiple
of four kept characters, at most two trailing padding characters, and every
character before the padding from the standard alphabet. -/
def isValidStdBase64 (s : String) : Bool :=
  let cs := base64Kept s.data
  let body := (cs.reverse.dropWhile (fun c => c == '=')).reverse
  cs.length % 4 == 0 && decide (base64PadCount cs ≤ 2) && body.all isBase64StdChar

/-- Errors of the client certificate, client key and encrypted key checks:
the shared missing-value sentinel and a base64 decoding failure. -/
inductive CertKeyErr
  | missingValue
  | invalidBase64
deriving DecidableEq

/-- Errors of the custom configuration file check. -/
inductive ConfFileErr
  | filepathMissing
  | fileMissing
  | extractFailed
deriving DecidableEq

/-- validateOpenVPNConfigFilepath. Modelled from the spec for the two
I/O-dependent steps: file existence and extraction of data from the file
are performed by the excluded collaborators, passed in here as the
predicates fe (file exists) and ex (extraction succeeds). -/
def validateOpenVPNConfigFilepath (fe ex : String → Bool) (isCustom : Bool)
    (confFile : String) : Option ConfFileErr :=
  if !isCustom then none
  else if confFile = "" then some ConfFileErr.filepathMissing
  else if !(fe confFile) then some ConfFileErr.fileMissing
  else if !(ex confFile) then some ConfFileErr.extractFailed
  else none

/-- validateOpenVPNClientCertificate: the certificate is required for the
four listed providers, and any non-empty value must be valid standard
base64. -/
def validateOpenVPNClientCertificate (vpnProvider clientCert : String) :
    Option CertKeyErr :=
  if (vpnProvider = Airvpn ∨ vpnProvider = Cyberghost ∨
      vpnProvider = VPNSecure ∨ vpnProvider = VPNUnlimited) ∧ clientCert = "" then
    some CertKeyErr.missingValue
  else if clientCert = "" then none
  else if isValidStdBase64 clientCert then none
  else some CertKeyErr.invalidBase64

/-- validateOpenVPNClientKey: the key is required for the four listed
providers, and any non-empty value must be valid standard base64. -/
def validateOpenVPNClientKey (vpnProvider clientKey : String) :
    Option CertKeyErr :=
  if (vpnProvider = Airvpn ∨ vpnProvider = Cyberghost ∨
      vpnProvider = VPNUnlimited ∨ vpnProvider = Wevpn) ∧ clientKey = "" then
    some CertKeyErr.missingValue
  else if clientKey = "" then none
  else if isValidStdBase64 clientKey then none
  else some CertKeyErr.invalidBase64

/-- validateOpenVPNEncryptedKey: required for VPNSecure, and any non-empty
value must be valid standard base64. -/
def validateOpenVPNEncryptedKey (vpnProvider encryptedPrivateKey : String) :
    Option CertKeyErr :=
  if vpnProvider = VPNSecure ∧ encryptedPrivateKey = "" then
    some CertKeyErr.missingValue
  else if encryptedPrivateKey = "" then none
  else if isValidStdBase64 encryptedPrivateKey then none
  else some CertKeyErr.invalidBase64

/-- Modelled from the spec: the regexpInterfaceName grammar declared in the
settings package outside the given sources: one or more word characters. -/
def interfaceNameMatches (s : String) : Bool :=
  !s.isEmpty && s.data.all (fun c => c.isAlphanum || c == '_')

/-- The sentinel error kinds of the OpenVPN validator, with the wrapping
context of the sub-checks (custom configuration file, client certificate,
client key, encrypted key) as constructors. -/
inductive VErr
  | versionNotValid (version : String)
  | userIsEmpty
  | passwordIsEmpty
  | customConfigFile (e : ConfFileErr)
  | clientCertificate (e : CertKeyErr)
  | clientKey (e : CertKeyErr)
  | encryptedKey (e : CertKeyErr)
  | keyPassphraseIsEmpty
  | mssFixTooHigh (value : Nat)
  | interfaceNotValid (name : String)
  | verbosityOutOfBounds
deriving DecidableEq

/-- The literal text of the verbosity error message after the formatted
value, from the fmt.Errorf format string of the verbosity check. -/
def verbosityErrText : String := "can only be between 0 and 5"

/-- Dereference of a possibly-nil pointer: `Except.error ()` is a Go nil
pointer dereference panic. -/
def deref {α : Type} (x : Option α) : Except Unit α :=
  match x with
  | some v => Except.ok v
  | none => Except.error ()

/-- validate.IsOneOf on the version against the two valid versions. -/
def versionIsValid (v : String) : Bool :=
  v == Openvpn25 || v == Openvpn26

/-- The isUserRequired flag of validate: every provider except custom,
Airvpn and VPNSecure requires a user. -/
def isUserRequired (p : String) : Bool :=
  !(p == Custom) && !(p == Airvpn) && !(p == VPNSecure)

/-- Last third of OpenVPN.validate: the MSSFix bound, the interface name
format and the verbosity range checks, in source order. -/
def validateNum (o : OpenVPN) : Except Unit (Option VErr) :=
  match o.MSSFix with
  | none => Except.error ()
  | some mss =>
    if mss > 10000 then Except.ok (some (VErr.mssFixTooHigh mss))
    else if !(interfaceNameMatches o.Interface) then
      Except.ok (some (VErr.interfaceNotValid o.Interface))
    else
      match o.Verbosity with
      | none => Except.error ()
      | some v =>
        if v < 0 ∨ v > 6 then Except.ok (some VErr.verbosityOutOfBounds)
        else Except.ok none

/-- Middle third of OpenVPN.validate: the custom configuration file, client
certificate, client key, encrypted key and key passphrase checks, in source
order, each dereferencing its pointer field unconditionally except the key
passphrase which is only dereferenced when the encrypted key is set. -/
def validateTail (fe ex : String → Bool) (o : OpenVPN) (p : String) :
    Except Unit (Option VErr) :=
  match o.ConfFile with
  | none => Except.error ()
  | some cf =>
  match validateOpenVPNConfigFilepath fe ex (p == Custom) cf with
  | some e => Except.ok (some (VErr.customConfigFile e))
  | none =>
  match o.Cert with
  | none => Except.error ()
  | some cert =>
  match validateOpenVPNClientCertificate p cert with
  | some e => Except.ok (some (VErr.clientCertificate e))
  | none =>
  match o.Key with
  | none => Except.error ()
  | some key =>
  match validateOpenVPNClientKey p key with
  | some e => Except.ok (some (VErr.clientKey e))
  | none =>
  match o.EncryptedKey with
  | none => Except.error ()
  | some ek =>
  match validateOpenVPNEncryptedKey p ek with
  | some e => Except.ok (some (VErr.encryptedKey e))
  | none =>
  if ek ≠ "" then
    match o.KeyPassphrase with
    | none => Except.error ()
    | some kp =>
      if kp = "" then Except.ok (some VErr.keyPassphraseIsEmpty)
      else validateNum o
  else validateNum o

/-- OpenVPN.validate: the ordered fail-fast check chain. The fe and ex
predicates stand for the filesystem collaborators of the custom
configuration file check. Short-circuit evaluation of the Go conditions
around the User and Password dereferences is reproduced by the branching:
the user is only dereferenced when a user is required, the ivpn account
pattern is only consulted for the ivpn provider, and the password is only
dereferenced when it is required. -/
def OpenVPN.validate (o : OpenVPN) (fe ex : String → Bool) (p : String) :
    Except Unit (Option VErr) :=
  if !(versionIsValid o.Version) then
    Except.ok (some (VErr.versionNotValid o.Version))
  else if isUserRequired p then
    match o.User with
    | none => Except.error ()
    | some u =>
      if u = "" then Except.ok (some VErr.userIsEmpty)
      else if !(p == Ivpn) || !(ivpnAccountIDMatch u) then
        match o.Password with
        | none => Except.error ()
        | some pw =>
          if pw = "" then Except.ok (some VErr.passwordIsEmpty)
          else validateTail fe ex o p
      else validateTail fe ex o p
  else validateTail fe ex o p

/-- Go fmt rendering of a string slice with the %s verb: the elements
separated by spaces inside square brackets. -/
def goStringSlice (l : List String) : String :=
  "[" ++ String.intercalate " " l ++ "]"

/-- Whether an embedded computation completed without a nil-pointer
dereference. -/
def exceptIsOk {α : Type} (e : Except Unit α) : Bool :=
  match e with
  | Except.ok _ => true
  | Except.error _ => false

/-- OpenVPN.toLinesNode: the rendered lines of the settings tree, in source
order. Secret-bearing fields go through ObfuscateKey; optional fields are
appended only when present; the key passphrase is dereferenced only inside
the encrypted-key branch, every other pointer field unconditionally. -/
def OpenVPN.toLinesNode (o : OpenVPN) : Except Unit (List String) :=
  match o.User with
  | none => Except.error ()
  | some u =>
  match o.Password with
  | none => Except.error ()
  | some pw =>
  match o.ConfFile with
  | none => Except.error ()
  | some cf =>
  match o.Auth with
  | none => Except.error ()
  | some auth =>
  match o.Cert with
  | none => Except.error ()
  | some cert =>
  match o.Key with
  | none => Except.error ()
  | some key =>
  match o.EncryptedKey with
  | none => Except.error ()
  | some ek =>
  match (if ek = "" then Except.ok []
         else
           match o.KeyPassphrase with
           | none => Except.error ()
           | some kp =>
             Except.ok ["Encrypted key: " ++ ObfuscateKey ek ++
               " (key passhrapse " ++ ObfuscateKey kp ++ ")"]) with
  | Except.error e => Except.error e
  | Except.ok ekLines =>
  match o.PIAEncPreset with
  | none => Except.error ()
  | some preset =>
  match o.MSSFix with
  | none => Except.error ()
  | some mss =>
  match o.Verbosity with
  | none => Except.error ()
  | some v =>
  Except.ok (
    ["OpenVPN settings:",
     "OpenVPN version: " ++ o.Version,
     "User: " ++ ObfuscateKey u,
     "Password: " ++ ObfuscateKey pw]
    ++ (if cf = "" then [] else ["Custom configuration file: " ++ cf])
    ++ (match o.Ciphers with
        | some cs => if cs.length > 0 then ["Ciphers: " ++ goStringSlice cs] else []
        | none => [])
    ++ (if auth = "" then [] else ["Auth: " ++ auth])
    ++ (if cert = "" then [] else ["Client crt: " ++ ObfuscateKey cert])
    ++ (if key = "" then [] else ["Client key: " ++ ObfuscateKey key])
    ++ ekLines
    ++ (if preset = "" then []
        else ["Private Internet Access encryption preset: " ++ preset])
    ++ (if mss > 0 then ["MSS Fix: " ++ toString mss] else [])
    ++ (if o.Interface = "" then [] else ["Network interface: " ++ o.Interface])
    ++ ["Run OpenVPN as: " ++ o.ProcessUser]
    ++ ["Verbosity level: " ++ toString v]
    ++ (match o.Flags with
        | some fs => if fs.length > 0 then ["Flags: " ++ goStringSlice fs] else []
        | none => []))

/-- The Updater settings record (time.Duration as integer nanoseconds). -/
structure Updater where
  Period : Int := 0
  DNSAddress : String := ""
  Cyberghost : Bool := false
  Mullvad : Bool := false
  Nordvpn : Bool := false
  PIA : Bool := false
  Privado : Bool := false
  Purevpn : Bool := false
  Surfshark : Bool := false
  Torguard : Bool := false
  Vyprvpn : Bool := false
  Windscribe : Bool := false
  Stdout : Bool := false
  CLI : Bool := false
deriving DecidableEq

/-- Modelled from the spec: the leaf tree-drawing marker of the
configuration package renderer. -/
def lastIndent : String := "└── "

/-- Modelled from the spec: one level of indentation of the configuration
package renderer. -/
def indent : String := "    "

/-- Updater.lines: nothing is rendered when the period is zero, otherwise
the section header and the period line. The Go duration formatting of the
period is external and passed in as periodText. -/
def Updater.lines (settings : Updater) (periodText : String) : List String :=
  if settings.Period = 0 then []
  else [lastIndent ++ "Updater:",
        indent ++ lastIndent ++ "Period: every " ++ periodText]

/-- Updater.read: sets nine provider enable flags, Stdout, CLI and the DNS
address to fixed values, then reads the period. The environment lookup
r.env.Duration of UPDATER_PERIOD with default zero is external and passed
in as periodResult, the (duration, error) pair that call returns; the Go
tuple assignment settings.Period, err = r.env.Duration(...) writes the
returned duration into Period unconditionally, before err is checked, so
the receiver's Period is overwritten even on a failed parse. The result is
the mutated receiver and the returned error. -/
def Updater.read (settings : Updater) (periodResult : Int × Option String) :
    Updater × Option String :=
  ({ settings with
      Cyberghost := true, Mullvad := true, Nordvpn := true, PIA := true,
      Purevpn := true, Surfshark := true, Torguard := true, Vyprvpn := true,
      Windscribe := true, Stdout := false, CLI := false,
      DNSAddress := "1.1.1.1",
      Period := periodResult.1 },
   periodResult.2)

/-- Modelled from the spec: an IP address is either four IPv4 octets or an
IPv6 address carried with its textual form. -/
inductive IP
  | v4 (a b c d : Nat)
  | v6 (text : String)
deriving DecidableEq

/-- Whether the address is an IPv6 address. -/
def IP.isIPv6 : IP → Bool
  | IP.v4 _ _ _ _ => false
  | IP.v6 _ => true

/-- Textual form of an address. -/
def IP.render : IP → String
  | IP.v4 a b c d =>
    toString a ++ "." ++ toString b ++ "." ++ toString c ++ "." ++ toString d
  | IP.v6 t => t

/-- Modelled from the spec: a CIDR network with possibly-absent IP and
mask fields (net.IPNet with nil IP or nil Mask); the mask is the prefix
length. -/
structure IPNet where
  ip : Option IP := none
  mask : Option Nat := none
deriving DecidableEq

/-- Textual form of a CIDR network. -/
def IPNet.render (n : IPNet) : String :=
  (match n.ip with
   | some addr => addr.render
   | none => "<nil>") ++ "/" ++
  (match n.mask with
   | some ones => toString ones
   | none => "<nil>")

/-- Modelled from the spec: a UDP endpoint address with possibly-absent IP. -/
structure UDPAddr where
  ip : Option IP := none
  port : Nat := 0
deriving DecidableEq

/-- Modelled from the spec: the WireGuard settings record (the WireGuard
settings source file is outside the given sources; only its tests are
given). List entries are `Option` because the Go slices hold pointers. -/
structure WgSettings where
  InterfaceName : String := ""
  PrivateKey : String := ""
  PublicKey : String := ""
  PreSharedKey : String := ""
  Endpoint : Option UDPAddr := none
  FirewallMark : Int := 0
  RulePriority : Int := 0
  AllowedIPs : List (Option IPNet) := []
  Addresses : List (Option IPNet) := []
  IPv6 : Option Bool := none
  Implementation : String := ""
deriving DecidableEq

/-- The sentinel error kinds of the WireGuard checker, one per invariant,
with names from the test expectations. -/
inductive WgErr
  | interfaceNameInvalid
  | privateKeyMissing
  | privateKeyInvalid
  | publicKeyMissing
  | publicKeyInvalid
  | preSharedKeyInvalid
  | endpointMissing
  | endpointIPMissing
  | endpointPortMissing
  | allowedIPsMissing
  | allowedIPIsNil
  | allowedIPIPIsNil
  | allowedIPv6NotSupported
  | addressMissing
  | addressNil
  | addressIPMissing
  | addressMaskMissing
  | firewallMarkMissing
  | implementationInvalid
deriving DecidableEq

/-- Number of bytes Go base64.StdEncoding.DecodeString would produce. -/
def base64DecodedLen (s : String) : Nat :=
  let cs := base64Kept s.data
  cs.length / 4 * 3 - base64PadCount cs

/-- Modelled from the spec: a WireGuard curve key is a base64-encoded
32-byte value (wgtypes.ParseKey: base64 decoding plus a length check). -/
def wgKeyValid (k : String) : Bool :=
  isValidStdBase64 k && base64DecodedLen k == 32

/-- Modelled from the spec: the ordered allowed-IP list checks with their
1-based position in the error messages: a nil entry, an entry with a nil IP
field, and an IPv6 entry while IPv6 is disabled. -/
def checkAllowedIPs (ipv6Enabled : Bool) (total : Nat) :
    Nat → List (Option IPNet) → Option (WgErr × String)
  | _, [] => none
  | i, entry :: rest =>
    match entry with
    | none => some (WgErr.allowedIPIsNil,
        "allowed IP is nil: for allowed IP " ++ toString i ++ " of " ++ toString total)
    | some ipNet =>
      match ipNet.ip with
      | none => some (WgErr.allowedIPIPIsNil,
          "allowed IP IP field is nil: for allowed IP " ++ toString i ++ " of " ++ toString total)
      | some addr =>
        if addr.isIPv6 && !ipv6Enabled then
          some (WgErr.allowedIPv6NotSupported,
            "allowed IPv6 address not supported: for allowed IP " ++ ipNet.render)
        else checkAllowedIPs ipv6Enabled total (i + 1) rest

/-- Modelled from the spec: the ordered interface-address list checks with
their 1-based position in the error messages: a nil entry, a nil IP and a
nil mask. -/
def checkAddresses (total : Nat) :
    Nat → List (Option IPNet) → Option (WgErr × String)
  | _, [] => none
  | i, entry :: rest =>
    match entry with
    | none => some (WgErr.addressNil,
        "interface address is nil: for address " ++ toString i ++ " of " ++ toString total)
    | some ipNet =>
      match ipNet.ip with
      | none => some (WgErr.addressIPMissing,
          "interface address IP is missing: for address " ++ toString i ++ " of " ++ toString total)
      | some _ =>
        match ipNet.mask with
        | none => some (WgErr.addressMaskMissing,
            "interface address mask is missing: for address " ++ toString i ++ " of " ++ toString total)
        | some _ => checkAddresses total (i + 1) rest

/-- Modelled from the spec: Settings.Check of the WireGuard package (the
source file is outside the given sources): the ordered fail-fast check
sequence of section 4.2 of the spec, with the sentinel kinds and message
texts pinned by the test table of Test_Settings_Check. -/
def WgSettings.Check (s : WgSettings) : Option (WgErr × String) :=
  if !(interfaceNameMatches s.InterfaceName) then
    some (WgErr.interfaceNameInvalid, "invalid interface name: " ++ s.InterfaceName)
  else if s.PrivateKey = "" then
    some (WgErr.privateKeyMissing, "private key is missing")
  else if !(wgKeyValid s.PrivateKey) then
    some (WgErr.privateKeyInvalid, "cannot parse private key")
  else if s.PublicKey = "" then
    some (WgErr.publicKeyMissing, "public key is missing")
  else if !(wgKeyValid s.PublicKey) then
    some (WgErr.publicKeyInvalid, "cannot parse public key: " ++ s.PublicKey)
  else if s.PreSharedKey != "" && !(wgKeyValid s.PreSharedKey) then
    some (WgErr.preSharedKeyInvalid, "cannot parse pre-shared key")
  else
    match s.Endpoint with
    | none => some (WgErr.endpointMissing, "endpoint is missing")
    | some ep =>
      match ep.ip with
      | none => some (WgErr.endpointIPMissing, "endpoint IP is missing")
      | some _ =>
        if ep.port = 0 then
          some (WgErr.endpointPortMissing, "endpoint port is missing")
        else if s.AllowedIPs.length = 0 then
          some (WgErr.allowedIPsMissing, "allowed IPs are missing")
        else
          match checkAllowedIPs (s.IPv6.getD false) s.AllowedIPs.length 1 s.AllowedIPs with
          | some e => some e
          | none =>
            if s.Addresses.length = 0 then
              some (WgErr.addressMissing, "interface address is missing")
            else
              match checkAddresses s.Addresses.length 1 s.Addresses with
              | some e => some e
              | none =>
                if s.FirewallMark = 0 then
                  some (WgErr.firewallMarkMissing, "firewall mark is missing")
                else if !(s.Implementation = "auto" ∨ s.Implementation = "userspace" ∨
                    s.Implementation = "kernelspace") then
                  some (WgErr.implementationInvalid,
                    "invalid implementation: " ++ s.Implementation)
                else none

theorem DefaultPointer_idem {α : Type} (x : Option α) (d : α) :
    DefaultPointer (DefaultPointer x d) d = DefaultPointer x d := by
  cases x <;> rfl

theorem DefaultString_idem (s d : String) :
    DefaultString (DefaultString s d) d = DefaultString s d := by
  by_cases h : s = "" <;> simp [DefaultString, h, ite_self]

/-- C1: for every pair of OpenVPN settings a, b, each field of a that is
present before `a.mergeWith b` (non-nil pointer, non-empty string, non-nil
slice) keeps its value, and each absent field takes b's value. Each field
contributes two conjuncts: present-is-untouched, then absent-takes-other. -/
theorem mergeWith_preserves_present_fields (a b : OpenVPN) :
    (a.Version ≠ "" → (a.mergeWith b).Version = a.Version) ∧
    (a.Version = "" → (a.mergeWith b).Version = b.Version) ∧
    (∀ v, a.User = some v → (a.mergeWith b).User = some v) ∧
    (a.User = none → (a.mergeWith b).User = b.User) ∧
    (∀ v, a.Password = some v → (a.mergeWith b).Password = some v) ∧
    (a.Password = none → (a.mergeWith b).Password = b.Password) ∧
    (∀ v, a.ConfFile = some v → (a.mergeWith b).ConfFile = some v) ∧
    (a.ConfFile = none → (a.mergeWith b).ConfFile = b.ConfFile) ∧
    (∀ v, a.Ciphers = some v → (a.mergeWith b).Ciphers = some v) ∧
    (a.Ciphers = none → (a.mergeWith b).Ciphers = b.Ciphers) ∧
    (∀ v, a.Auth = some v → (a.mergeWith b).Auth = some v) ∧
    (a.Auth = none → (a.mergeWith b).Auth = b.Auth) ∧
    (∀ v, a.Cert = some v → (a.mergeWith b).Cert = some v) ∧
    (a.Cert = none → (a.mergeWith b).Cert = b.Cert) ∧
    (∀ v, a.Key = some v → (a.mergeWith b).Key = some v) ∧
    (a.Key = none → (a.mergeWith b).Key = b.Key) ∧
    (∀ v, a.EncryptedKey = some v → (a.mergeWith b).EncryptedKey = some v) ∧
    (a.EncryptedKey = none → (a.mergeWith b).EncryptedKey = b.EncryptedKey) ∧
    (∀ v, a.KeyPassphrase = some v → (a.mergeWith b).KeyPassphrase = some v) ∧
    (a.KeyPassphrase = none → (a.mergeWith b).KeyPassphrase = b.KeyPassphrase) ∧
    (∀ v, a.PIAEncPreset = some v → (a.mergeWith b).PIAEncPreset = some v) ∧
    (a.PIAEncPreset = none → (a.mergeWith b).PIAEncPreset = b.PIAEncPreset) ∧
    (∀ v, a.MSSFix = some v → (a.mergeWith b).MSSFix = some v) ∧
    (a.MSSFix = none → (a.mergeWith b).MSSFix = b.MSSFix) ∧
    (a.Interface ≠ "" → (a.mergeWith b).Interface = a.Interface) ∧
    (a.Interface = "" → (a.mergeWith b).Interface = b.Interface) ∧
    (a.ProcessUser ≠ "" → (a.mergeWith b).ProcessUser = a.ProcessUser) ∧
    (a.ProcessUser = "" → (a.mergeWith b).ProcessUser = b.ProcessUser) ∧
    (∀ v, a.Verbosity = some v → (a.mergeWith b).Verbosity = some v) ∧
    (a.Verbosity = none → (a.mergeWith b).Verbosity = b.Verbosity) ∧
    (∀ v, a.Flags = some v → (a.mergeWith b).Flags = some v) ∧
    (a.Flags = none → (a.mergeWith b).Flags = b.Flags) := by
  refine ⟨?_, ?_, ?_, ?_, ?_, ?_, ?_, ?_, ?_, ?_, ?_, ?_, ?_, ?_, ?_, ?_,
    ?_, ?_, ?_, ?_, ?_, ?_, ?_, ?_, ?_, ?_, ?_, ?_, ?_, ?_, ?_, ?_⟩ <;>
    (intros
     simp_all [OpenVPN.mergeWith, MergeWithString, MergeWithPointer, MergeWithSlice])

/-- C1 witness: the theorem applied at concrete settings with a present
User field on the left and an absent Version field. -/
theorem mergeWith_preserves_present_fields_app :
    (OpenVPN.mergeWith { User := some "alice" } { User := some "bob" }).User = some "alice" ∧
    (OpenVPN.mergeWith { Version := "" } { Version := "2.6" }).Version = "2.6" := by
  constructor
  · exact (mergeWith_preserves_present_fields { User := some "alice" }
      { User := some "bob" }).2.2.1 "alice" rfl
  · exact (mergeWith_preserves_present_fields { Version := "" }
      { Version := "2.6" }).2.1 rfl

/-- C2: setDefaults is idempotent: a second application with the same
provider leaves every field unchanged. -/
theorem setDefaults_idempotent (p : String) (o : OpenVPN) :
    (o.setDefaults p).setDefaults p = o.setDefaults p := by
  by_cases hp : p = Mullvad <;>
    simp [OpenVPN.setDefaults, hp, DefaultString_idem, DefaultPointer_idem]

theorem validateNum_ne_user (o : OpenVPN) :
    validateNum o ≠ Except.ok (some VErr.userIsEmpty) := by
  unfold validateNum
  (repeat' split) <;> simp

theorem validateNum_ne_password (o : OpenVPN) :
    validateNum o ≠ Except.ok (some VErr.passwordIsEmpty) := by
  unfold validateNum
  (repeat' split) <;> simp

theorem validateTail_ne_user (fe ex : String → Bool) (o : OpenVPN) (p : String) :
    validateTail fe ex o p ≠ Except.ok (some VErr.userIsEmpty) := by
  unfold validateTail
  (repeat' split) <;> simp [validateNum_ne_user]

theorem validateTail_ne_password (fe ex : String → Bool) (o : OpenVPN) (p : String) :
    validateTail fe ex o p ≠ Except.ok (some VErr.passwordIsEmpty) := by
  unfold validateTail
  (repeat' split) <;> simp [validateNum_ne_password]

theorem validate_eq_validateTail (fe ex : String → Bool) (o : OpenVPN)
    (p u pw : String)
    (hver : versionIsValid o.Version = true)
    (hU : o.User = some u) (hu : u ≠ "")
    (hP : o.Password = some pw) (hpw : pw ≠ "") :
    o.validate fe ex p = validateTail fe ex o p := by
  unfold OpenVPN.validate
  simp [hver, hU, hP, hu, hpw]

/-- C5: with the version check passing, the user-is-empty sentinel is
returned exactly when the provider requires a user (neither custom nor
Airvpn nor VPNSecure) and the user is empty; past the user check, the
password-is-empty sentinel is returned exactly when the user is required
and additionally the provider is not ivpn or the user does not match the
ivpn account-ID pattern, and the password is empty. -/
theorem validate_credentials_requirements (fe ex : String → Bool)
    (o : OpenVPN) (p u pw : String)
    (hver : versionIsValid o.Version = true)
    (hU : o.User = some u) (hP : o.Password = some pw) :
    (o.validate fe ex p = Except.ok (some VErr.userIsEmpty) ↔
      isUserRequired p = true ∧ u = "") ∧
    (¬(isUserRequired p = true ∧ u = "") →
      (o.validate fe ex p = Except.ok (some VErr.passwordIsEmpty) ↔
        (isUserRequired p = true ∧ (p ≠ Ivpn ∨ ivpnAccountIDMatch u = false)) ∧
          pw = "")) := by
  unfold OpenVPN.validate
  by_cases hreq : isUserRequired p
  · by_cases hu : u = ""
    · simp [hver, hU, hP, hreq, hu]
    · by_cases hiv : (!(p == Ivpn) || !(ivpnAccountIDMatch u)) = true
      · by_cases hpw : pw = "" <;>
          simp_all [hver, hU, hP, hreq, hu, hiv, hpw, validateTail_ne_user,
            validateTail_ne_password]
      · simp_all [hver, hU, hP, hreq, hu, hiv, validateTail_ne_user,
          validateTail_ne_password]
  · simp [hver, hU, hP, hreq, validateTail_ne_user, validateTail_ne_password]

/-- C5 witness: for provider nordvpn (user required) and empty user the
user-is-empty sentinel is returned. -/
theorem validate_credentials_requirements_app :
    OpenVPN.validate
        { Version := "2.5", User := some "", Password := some "x" }
        (fun _ => false) (fun _ => false) "nordvpn" =
      Except.ok (some VErr.userIsEmpty) := by
  exact (validate_credentials_requirements (fun _ => false) (fun _ => false)
    { Version := "2.5", User := some "", Password := some "x" }
    "nordvpn" "" "x" (by decide) rfl rfl).1.mpr ⟨by decide, rfl⟩

/-- C6: with the version, user/password and custom-configuration-file
checks passing, an empty certificate fails with the missing-value sentinel
wrapped under client certificate exactly for the providers Airvpn,
Cyberghost, VPNSecure and VPNUnlimited; for any provider a non-empty
certificate that is not valid standard base64 fails under the same wrap;
and an empty certificate for any other provider passes the certificate
check. -/
theorem validate_client_certificate_rules (fe ex : String → Bool)
    (o : OpenVPN) (p u pw cf c : String)
    (hver : versionIsValid o.Version = true)
    (hU : o.User = some u) (hu : u ≠ "")
    (hP : o.Password = some pw) (hpw : pw ≠ "")
    (hCF : o.ConfFile = some cf)
    (hconf : validateOpenVPNConfigFilepath fe ex (p == Custom) cf = none)
    (hC : o.Cert = some c) :
    ((p = Airvpn ∨ p = Cyberghost ∨ p = VPNSecure ∨ p = VPNUnlimited) →
      c = "" →
      o.validate fe ex p =
        Except.ok (some (VErr.clientCertificate CertKeyErr.missingValue))) ∧
    (c ≠ "" → isValidStdBase64 c = false →
      o.validate fe ex p =
        Except.ok (some (VErr.clientCertificate CertKeyErr.invalidBase64))) ∧
    (c = "" → ¬(p = Airvpn ∨ p = Cyberghost ∨ p = VPNSecure ∨ p = VPNUnlimited) →
      validateOpenVPNClientCertificate p c = none) := by
  rw [validate_eq_validateTail fe ex o p u pw hver hU hu hP hpw]
  unfold validateTail
  refine ⟨?_, ?_, ?_⟩
  · intro hprov hc
    simp [hCF, hconf, hC, validateOpenVPNClientCertificate, hprov, hc]
  · intro hc hb64
    simp [hCF, hconf, hC, validateOpenVPNClientCertificate, hc, hb64]
  · intro hc hprov
    simp [validateOpenVPNClientCertificate, hc, hprov]

/-- C6 witness: provider cyberghost with every earlier check passing and an
empty certificate fails with the missing-value sentinel under the client
certificate wrap. -/
theorem validate_client_certificate_rules_app :
    OpenVPN.validate
        { Version := "2.5", User := some "u", Password := some "w",
          ConfFile := some "", Cert := some "" }
        (fun _ => false) (fun _ => false) "cyberghost" =
      Except.ok (some (VErr.clientCertificate CertKeyErr.missingValue)) := by
  exact (validate_client_certificate_rules (fun _ => false) (fun _ => false)
    { Version := "2.5", User := some "u", Password := some "w",
      ConfFile := some "", Cert := some "" }
    "cyberghost" "u" "w" "" "" (by decide) rfl (by decide) rfl (by decide)
    rfl (by decide) rfl).1 (Or.inr (Or.inl rfl)) rfl

/-- C4: with every check before the verbosity check passing, the
verbosity-out-of-bounds sentinel is returned exactly when the verbosity is
negative or above six (so the values zero through six pass the comparison),
while the literal text of its error message cites the bound five: the
comparison bound and the message bound differ by one. -/
theorem validate_verbosity_bound_mismatch (fe ex : String → Bool)
    (o : OpenVPN) (p u pw cf c k ek : String) (mss : Nat) (v : Int)
    (hver : versionIsValid o.Version = true)
    (hU : o.User = some u) (hu : u ≠ "")
    (hP : o.Password = some pw) (hpw : pw ≠ "")
    (hCF : o.ConfFile = some cf)
    (hconf : validateOpenVPNConfigFilepath fe ex (p == Custom) cf = none)
    (hC : o.Cert = some c)
    (hcert : validateOpenVPNClientCertificate p c = none)
    (hK : o.Key = some k)
    (hkey : validateOpenVPNClientKey p k = none)
    (hE : o.EncryptedKey = some ek)
    (henc : validateOpenVPNEncryptedKey p ek = none)
    (hkp : ek = "" ∨ ∃ kp, o.KeyPassphrase = some kp ∧ kp ≠ "")
    (hM : o.MSSFix = some mss) (hmss : mss ≤ 10000)
    (hif : interfaceNameMatches o.Interface = true)
    (hV : o.Verbosity = some v) :
    (o.validate fe ex p = Except.ok (some VErr.verbosityOutOfBounds) ↔
      (v < 0 ∨ v > 6)) ∧
    verbosityErrText = "can only be between 0 and 5" := by
  rw [validate_eq_validateTail fe ex o p u pw hver hU hu hP hpw]
  unfold validateTail
  have hnotmss : ¬(mss > 10000) := by omega
  have hnum : validateNum o =
      (if v < 0 ∨ v > 6 then Except.ok (some VErr.verbosityOutOfBounds)
       else Except.ok none) := by
    unfold validateNum
    rw [hM, hV]
    simp [hnotmss, hif]
  refine ⟨?_, rfl⟩
  rcases hkp with hek | ⟨kp, hKP, hkpne⟩
  · subst hek
    simp [hCF, hconf, hC, hcert, hK, hkey, hE, henc, hnum]
    by_cases hb : v < 0 ∨ v > 6 <;> simp [hb] <;> omega
  · simp [hCF, hconf, hC, hcert, hK, hkey, hE, henc, hKP, hkpne, hnum]
    by_cases hek : ek = "" <;> by_cases hb : v < 0 ∨ v > 6 <;>
      simp [hek, hb] <;> omega

/-- C4 witness: a fully-valid configuration except verbosity seven is
rejected by the comparison even though the message text cites five. -/
theorem validate_verbosity_bound_mismatch_app :
    OpenVPN.validate
        { Version := "2.5", User := some "u", Password := some "w",
          ConfFile := some "", Cert := some "", Key := some "",
          EncryptedKey := some "", KeyPassphrase := some "",
          MSSFix := some 0, Interface := "tun0", Verbosity := some 7 }
        (fun _ => false) (fun _ => false) "nordvpn" =
      Except.ok (some VErr.verbosityOutOfBounds) := by
  exact (validate_verbosity_bound_mismatch (fun _ => false) (fun _ => false)
    { Version := "2.5", User := some "u", Password := some "w",
      ConfFile := some "", Cert := some "", Key := some "",
      EncryptedKey := some "", KeyPassphrase := some "",
      MSSFix := some 0, Interface := "tun0", Verbosity := some 7 }
    "nordvpn" "u" "w" "" "" "" "" 0 7 (by decide) rfl (by decide) rfl
    (by decide) rfl (by decide) rfl (by decide) rfl (by decide) rfl
    (by decide) (Or.inl rfl) rfl (by decide) (by decide) rfl).1.mpr
    (Or.inr (by norm_num))

/-- C3: the empty WireGuard settings fail the first check of the ordered
chain, the interface-name check, with the interface-name-invalid sentinel
and the exact message, and whenever the interface name is invalid no later
check's error can be returned. -/
theorem wg_check_fail_fast_interface_name :
    (WgSettings.Check {} =
      some (WgErr.interfaceNameInvalid, "invalid interface name: ")) ∧
    (∀ s : WgSettings, interfaceNameMatches s.InterfaceName = false →
      s.Check = some (WgErr.interfaceNameInvalid,
        "invalid interface name: " ++ s.InterfaceName)) := by
  constructor
  · rfl
  · intro s h
    unfold WgSettings.Check
    simp [h]

/-- C3 witness: a settings value with an invalid non-empty interface name
is also rejected by the first check through the theorem's second part. -/
theorem wg_check_fail_fast_interface_name_app :
    WgSettings.Check { InterfaceName := "$H1T" } =
      some (WgErr.interfaceNameInvalid, "invalid interface name: $H1T") := by
  exact wg_check_fail_fast_interface_name.2 { InterfaceName := "$H1T" } (by decide)

/-- C7: the rendered OpenVPN lines do not depend on the value of any
non-empty secret field: two settings differing only in the User, Password,
Cert, Key, EncryptedKey or KeyPassphrase value (both non-empty) render to
identical lines, so no rendered line contains the underlying secret. -/
theorem toLines_secret_noninterference (o : OpenVPN) :
    (∀ s1 s2 : String, s1 ≠ "" → s2 ≠ "" →
      OpenVPN.toLinesNode { o with User := some s1 } =
        OpenVPN.toLinesNode { o with User := some s2 }) ∧
    (∀ s1 s2 : String, s1 ≠ "" → s2 ≠ "" →
      OpenVPN.toLinesNode { o with Password := some s1 } =
        OpenVPN.toLinesNode { o with Password := some s2 }) ∧
    (∀ s1 s2 : String, s1 ≠ "" → s2 ≠ "" →
      OpenVPN.toLinesNode { o with Cert := some s1 } =
        OpenVPN.toLinesNode { o with Cert := some s2 }) ∧
    (∀ s1 s2 : String, s1 ≠ "" → s2 ≠ "" →
      OpenVPN.toLinesNode { o with Key := some s1 } =
        OpenVPN.toLinesNode { o with Key := some s2 }) ∧
    (∀ s1 s2 : String, s1 ≠ "" → s2 ≠ "" →
      OpenVPN.toLinesNode { o with EncryptedKey := some s1 } =
        OpenVPN.toLinesNode { o with EncryptedKey := some s2 }) ∧
    (∀ s1 s2 : String, s1 ≠ "" → s2 ≠ "" →
      OpenVPN.toLinesNode { o with KeyPassphrase := some s1 } =
        OpenVPN.toLinesNode { o with KeyPassphrase := some s2 }) := by
  refine ⟨?_, ?_, ?_, ?_, ?_, ?_⟩ <;>
    (intro s1 s2 h1 h2
     simp [OpenVPN.toLinesNode, ObfuscateKey, h1, h2])

/-- C7 witness: two settings differing only in a non-empty password render
to the same lines. -/
theorem toLines_secret_noninterference_app :
    OpenVPN.toLinesNode { Password := some "hunter2" } =
      OpenVPN.toLinesNode { Password := some "a" } := by
  exact (toLines_secret_noninterference {}).2.1 "hunter2" "a"
    (by decide) (by decide)

/-- C8 counterexample: two settings identical except that the Auth field is
present-empty in the first and carries a value in the second; the first
renders seven lines (no explicit not-set line for Auth), the second eight,
so an absent/empty optional field is omitted and the line count shrinks. -/
theorem toLines_absent_field_omitted_cex :
    (OpenVPN.toLinesNode
        { Version := "2.5", User := some "u", Password := some "w",
          ConfFile := some "", Auth := some "", Cert := some "",
          Key := some "", EncryptedKey := some "", KeyPassphrase := some "",
          PIAEncPreset := some "", MSSFix := some 0, Interface := "tun0",
          ProcessUser := "root", Verbosity := some 1 }).map List.length =
      Except.ok 7 ∧
    (OpenVPN.toLinesNode
        { Version := "2.5", User := some "u", Password := some "w",
          ConfFile := some "", Auth := some "SHA256", Cert := some "",
          Key := some "", EncryptedKey := some "", KeyPassphrase := some "",
          PIAEncPreset := some "", MSSFix := some 0, Interface := "tun0",
          ProcessUser := "root", Verbosity := some 1 }).map List.length =
      Except.ok 8 := by
  exact ⟨rfl, rfl⟩

theorem length_ite_nil_single (c : Prop) [Decidable c] (x : String) :
    (if c then ([] : List String) else [x]).length = if c then 0 else 1 := by
  split <;> rfl

theorem length_ite_single_nil (c : Prop) [Decidable c] (x : String) :
    (if c then [x] else ([] : List String)).length = if c then 1 else 0 := by
  split <;> rfl

/-- C8 as amended: empty or absent optional OpenVPN fields are omitted from
the rendered output rather than rendered as an explicit not-set line: the
line count is six fixed lines plus one line per present optional field, so
it does shrink when an optional field is absent or empty; likewise the
whole Updater section is omitted when the period is zero. -/
theorem toLines_optional_line_count (o : OpenVPN)
    (u pw cf auth cert key ek kp preset : String) (mss : Nat) (v : Int)
    (hU : o.User = some u) (hP : o.Password = some pw)
    (hCF : o.ConfFile = some cf) (hA : o.Auth = some auth)
    (hC : o.Cert = some cert) (hK : o.Key = some key)
    (hE : o.EncryptedKey = some ek) (hKP : o.KeyPassphrase = some kp)
    (hPre : o.PIAEncPreset = some preset) (hM : o.MSSFix = some mss)
    (hV : o.Verbosity = some v) :
    (OpenVPN.toLinesNode o).map List.length = Except.ok (6
      + (if cf = "" then 0 else 1)
      + (match o.Ciphers with
         | some cs => if cs.length > 0 then 1 else 0
         | none => 0)
      + (if auth = "" then 0 else 1)
      + (if cert = "" then 0 else 1)
      + (if key = "" then 0 else 1)
      + (if ek = "" then 0 else 1)
      + (if preset = "" then 0 else 1)
      + (if mss > 0 then 1 else 0)
      + (if o.Interface = "" then 0 else 1)
      + (match o.Flags with
         | some fs => if fs.length > 0 then 1 else 0
         | none => 0)) ∧
    (∀ periodText, Updater.lines {} periodText = []) := by
  refine ⟨?_, fun _ => rfl⟩
  obtain ⟨Ver, U, P, CF, Ci, Au, Ce, K, E, KP, Pre, M, Ifc, PU, V, F⟩ := o
  simp only [] at hU hP hCF hA hC hK hE hKP hPre hM hV
  subst hU hP hCF hA hC hK hE hKP hPre hM hV
  by_cases hek : ek = "" <;>
    cases Ci <;> cases F <;>
      simp only [OpenVPN.toLinesNode, hek, if_pos, if_neg, if_true, if_false,
        ite_true, ite_false, Except.map, List.length_append, List.length_cons,
        List.length_nil, List.length_singleton, length_ite_nil_single,
        length_ite_single_nil, Except.ok.injEq, not_false_iff, not_true] <;>
      ring

/-- C8 witness: the amended line count at a concrete settings value with
only the Auth optional field present. -/
theorem toLines_optional_line_count_app :
    (OpenVPN.toLinesNode
        { Version := "2.5", User := some "u", Password := some "w",
          ConfFile := some "", Auth := some "SHA256", Cert := some "",
          Key := some "", EncryptedKey := some "", KeyPassphrase := some "",
          PIAEncPreset := some "", MSSFix := some 0, Interface := "",
          ProcessUser := "root", Verbosity := some 1 }).map List.length =
      Except.ok 7 := by
  exact ((toLines_optional_line_count
    { Version := "2.5", User := some "u", Password := some "w",
      ConfFile := some "", Auth := some "SHA256", Cert := some "",
      Key := some "", EncryptedKey := some "", KeyPassphrase := some "",
      PIAEncPreset := some "", MSSFix := some 0, Interface := "",
      ProcessUser := "root", Verbosity := some 1 }
    "u" "w" "" "SHA256" "" "" "" "" "" 0 1
    rfl rfl rfl rfl rfl rfl rfl rfl rfl rfl rfl).1).trans rfl

theorem DefaultPointer_isSome {α : Type} (x : Option α) (d : α) :
    (DefaultPointer x d).isSome = true := by
  cases x <;> rfl

theorem DefaultPointer_eq_some {α : Type} (x : Option α) (d : α) :
    DefaultPointer x d = some (x.getD d) := by
  cases x <;> rfl

theorem validateNum_isOk (o : OpenVPN) (mss : Nat) (v : Int)
    (hM : o.MSSFix = some mss) (hV : o.Verbosity = some v) :
    exceptIsOk (validateNum o) = true := by
  unfold validateNum
  simp only [hM, hV]
  (repeat' split) <;> simp [exceptIsOk]

theorem validateTail_isOk (fe ex : String → Bool) (o : OpenVPN)
    (p cf c k ek kp : String) (mss : Nat) (v : Int)
    (hCF : o.ConfFile = some cf) (hC : o.Cert = some c)
    (hK : o.Key = some k) (hE : o.EncryptedKey = some ek)
    (hKP : o.KeyPassphrase = some kp) (hM : o.MSSFix = some mss)
    (hV : o.Verbosity = some v) :
    exceptIsOk (validateTail fe ex o p) = true := by
  have hnum := validateNum_isOk o mss v hM hV
  unfold validateTail
  simp only [hCF, hC, hK, hE, hKP]
  (repeat' split) <;> simp_all [exceptIsOk]

theorem validate_isOk_of_somes (fe ex : String → Bool) (o : OpenVPN)
    (p u pw cf c k ek kp : String) (mss : Nat) (v : Int)
    (hU : o.User = some u) (hP : o.Password = some pw)
    (hCF : o.ConfFile = some cf) (hC : o.Cert = some c)
    (hK : o.Key = some k) (hE : o.EncryptedKey = some ek)
    (hKP : o.KeyPassphrase = some kp) (hM : o.MSSFix = some mss)
    (hV : o.Verbosity = some v) :
    exceptIsOk (o.validate fe ex p) = true := by
  have htail := validateTail_isOk fe ex o p cf c k ek kp mss v hCF hC hK hE hKP hM hV
  unfold OpenVPN.validate
  simp only [hU, hP]
  (repeat' split) <;> simp_all [exceptIsOk]

theorem toLines_isOk_of_somes (o : OpenVPN)
    (u pw cf auth c k ek kp preset : String) (mss : Nat) (v : Int)
    (hU : o.User = some u) (hP : o.Password = some pw)
    (hCF : o.ConfFile = some cf) (hA : o.Auth = some auth)
    (hC : o.Cert = some c) (hK : o.Key = some k)
    (hE : o.EncryptedKey = some ek) (hKP : o.KeyPassphrase = some kp)
    (hPre : o.PIAEncPreset = some preset) (hM : o.MSSFix = some mss)
    (hV : o.Verbosity = some v) :
    exceptIsOk o.toLinesNode = true := by
  unfold OpenVPN.toLinesNode
  simp only [hU, hP, hCF, hA, hC, hK, hE, hKP, hPre, hM, hV]
  by_cases hek : ek = "" <;> simp [hek, exceptIsOk]

/-- C9 counterexample: calling validate on the zero-value OpenVPN settings
does not dereference a nil pointer: the version check fails first and
returns the version-not-valid sentinel before any dereference. -/
theorem validate_zero_value_no_deref_cex :
    OpenVPN.validate {} (fun _ => false) (fun _ => false) Custom =
      Except.ok (some (VErr.versionNotValid "")) ∧
    OpenVPN.validate {} (fun _ => false) (fun _ => false) Custom ≠
      Except.error () := by
  refine ⟨rfl, ?_⟩
  intro h
  exact Except.noConfusion h

/-- C9 as amended: after setDefaults every pointer field is non-nil, so
validate and toLinesNode cannot hit a nil dereference on a defaulted value
(for any providers used in the two steps); on the zero-value OpenVPN,
toLinesNode does dereference a nil pointer, while validate instead returns
the version-not-valid error before any dereference. -/
theorem setDefaults_nonnil_and_deref_safety :
    (∀ (o : OpenVPN) (p : String),
      ((o.setDefaults p).User).isSome = true ∧
      ((o.setDefaults p).Password).isSome = true ∧
      ((o.setDefaults p).ConfFile).isSome = true ∧
      ((o.setDefaults p).Auth).isSome = true ∧
      ((o.setDefaults p).Cert).isSome = true ∧
      ((o.setDefaults p).Key).isSome = true ∧
      ((o.setDefaults p).EncryptedKey).isSome = true ∧
      ((o.setDefaults p).KeyPassphrase).isSome = true ∧
      ((o.setDefaults p).PIAEncPreset).isSome = true ∧
      ((o.setDefaults p).MSSFix).isSome = true ∧
      ((o.setDefaults p).Verbosity).isSome = true) ∧
    (∀ (fe ex : String → Bool) (o : OpenVPN) (p q : String),
      exceptIsOk ((o.setDefaults p).validate fe ex q) = true) ∧
    (∀ (o : OpenVPN) (p : String),
      exceptIsOk ((o.setDefaults p).toLinesNode) = true) ∧
    (OpenVPN.toLinesNode {} = Except.error ()) ∧
    (∀ (fe ex : String → Bool) (q : String),
      OpenVPN.validate {} fe ex q =
        Except.ok (some (VErr.versionNotValid ""))) := by
  have hPwd : ∀ (o : OpenVPN) (p : String), (o.setDefaults p).Password =
      some (if p = Mullvad then o.Password.getD "m" else o.Password.getD "") := by
    intro o p
    by_cases hp : p = Mullvad <;>
      simp [OpenVPN.setDefaults, hp, DefaultPointer_eq_some]
  refine ⟨fun o p => ?_, fun fe ex o p q => ?_, fun o p => ?_, rfl,
    fun fe ex q => rfl⟩
  · by_cases hp : p = Mullvad <;>
      simp [OpenVPN.setDefaults, hp, DefaultPointer_isSome]
  · have hU : (o.setDefaults p).User = some (o.User.getD "") := by
      simp [OpenVPN.setDefaults, DefaultPointer_eq_some]
    have hCF : (o.setDefaults p).ConfFile = some (o.ConfFile.getD "") := by
      simp [OpenVPN.setDefaults, DefaultPointer_eq_some]
    have hC : (o.setDefaults p).Cert = some (o.Cert.getD "") := by
      simp [OpenVPN.setDefaults, DefaultPointer_eq_some]
    have hK : (o.setDefaults p).Key = some (o.Key.getD "") := by
      simp [OpenVPN.setDefaults, DefaultPointer_eq_some]
    have hE : (o.setDefaults p).EncryptedKey = some (o.EncryptedKey.getD "") := by
      simp [OpenVPN.setDefaults, DefaultPointer_eq_some]
    have hKP : (o.setDefaults p).KeyPassphrase = some (o.KeyPassphrase.getD "") := by
      simp [OpenVPN.setDefaults, DefaultPointer_eq_some]
    have hM : (o.setDefaults p).MSSFix = some (o.MSSFix.getD 0) := by
      simp [OpenVPN.setDefaults, DefaultPointer_eq_some]
    have hV : (o.setDefaults p).Verbosity = some (o.Verbosity.getD 1) := by
      simp [OpenVPN.setDefaults, DefaultPointer_eq_some]
    exact validate_isOk_of_somes fe ex _ q _ _ _ _ _ _ _ _ _
      hU (hPwd o p) hCF hC hK hE hKP hM hV
  · have hU : (o.setDefaults p).User = some (o.User.getD "") := by
      simp [OpenVPN.setDefaults, DefaultPointer_eq_some]
    have hCF : (o.setDefaults p).ConfFile = some (o.ConfFile.getD "") := by
      simp [OpenVPN.setDefaults, DefaultPointer_eq_some]
    have hA : (o.setDefaults p).Auth = some (o.Auth.getD "") := by
      simp [OpenVPN.setDefaults, DefaultPointer_eq_some]
    have hC : (o.setDefaults p).Cert = some (o.Cert.getD "") := by
      simp [OpenVPN.setDefaults, DefaultPointer_eq_some]
    have hK : (o.setDefaults p).Key = some (o.Key.getD "") := by
      simp [OpenVPN.setDefaults, DefaultPointer_eq_some]
    have hE : (o.setDefaults p).EncryptedKey = some (o.EncryptedKey.getD "") := by
      simp [OpenVPN.setDefaults, DefaultPointer_eq_some]
    have hKP : (o.setDefaults p).KeyPassphrase = some (o.KeyPassphrase.getD "") := by
      simp [OpenVPN.setDefaults, DefaultPointer_eq_some]
    have hPre : (o.setDefaults p).PIAEncPreset = some (o.PIAEncPreset.getD
        (if p = PrivateInternetAccess then PresetStrong else "")) := by
      simp [OpenVPN.setDefaults, DefaultPointer_eq_some]
    have hM : (o.setDefaults p).MSSFix = some (o.MSSFix.getD 0) := by
      simp [OpenVPN.setDefaults, DefaultPointer_eq_some]
    have hV : (o.setDefaults p).Verbosity = some (o.Verbosity.getD 1) := by
      simp [OpenVPN.setDefaults, DefaultPointer_eq_some]
    exact toLines_isOk_of_somes _ _ _ _ _ _ _ _ _ _ _ _
      hU (hPwd o p) hCF hA hC hK hE hKP hPre hM hV

/-- C10 counterexample: read does not set the Privado per-provider enable
flag: starting from the zero value and a successfully parsed period, the
flag remains false while the other provider flags are set to true. -/
theorem updater_read_privado_cex :
    (Updater.read {} (0, none)).1.Privado = false ∧
    (Updater.read {} (0, none)).1.Mullvad = true := by
  exact ⟨rfl, rfl⟩

/-- C10 as amended: read unconditionally sets the nine provider enable
flags Cyberghost, Mullvad, Nordvpn, PIA, Purevpn, Surfshark, Torguard,
Vyprvpn and Windscribe to true, leaves Privado unchanged, sets Stdout and
CLI to false and the DNS address to 1.1.1.1; Period takes the duration the
UPDATER_PERIOD environment read returns, unconditionally, because the
tuple assignment precedes the error check; and read returns an error
exactly when that read does. -/
theorem updater_read_behavior (u : Updater) (pr : Int × Option String) :
    ((u.read pr).1.Cyberghost = true) ∧ ((u.read pr).1.Mullvad = true) ∧
    ((u.read pr).1.Nordvpn = true) ∧ ((u.read pr).1.PIA = true) ∧
    ((u.read pr).1.Purevpn = true) ∧ ((u.read pr).1.Surfshark = true) ∧
    ((u.read pr).1.Torguard = true) ∧ ((u.read pr).1.Vyprvpn = true) ∧
    ((u.read pr).1.Windscribe = true) ∧
    ((u.read pr).1.Privado = u.Privado) ∧
    ((u.read pr).1.Stdout = false) ∧ ((u.read pr).1.CLI = false) ∧
    ((u.read pr).1.DNSAddress = "1.1.1.1") ∧
    ((u.read pr).1.Period = pr.1) ∧
    ((u.read pr).2 = pr.2) := by
  simp [Updater.read]
